import Mathlib

/-!
Shallow embedding of the FastAPI tutorial application `src/app.py`.

Each route handler is a pure Lean function of its validated input.
Python `float` fields only ever hold literal values that are stored and
echoed back (no arithmetic is performed on them), so they are modelled
as `Rat`. Handlers that can raise `HTTPException` return
`Except HTTPException α`; handlers that cannot raise return their
output type directly. The Python `dict` inside `ItemService` is
modelled as an association list with `List.lookup`, matching
`dict.get(key, default)` semantics on its distinct keys.
-/

/-- Pydantic request model `Item`: `name` and `price` are required,
`description` and `tax` are optional and default to `None`. -/
structure Item where
  name : String
  description : Option String := none
  price : Rat
  tax : Option Rat := none
deriving DecidableEq, Repr

/-- The exception raised by handlers, with a status code and a detail
string, mirroring `fastapi.HTTPException`. -/
structure HTTPException where
  status_code : Nat
  detail : String
deriving DecidableEq, Repr

/-- Python renders `None` as the string "None" inside an f-string and a
string unquoted; this is the rendering used by the `/hello` handler. -/
def pyShowOptStr : Option String → String
  | none => "None"
  | some s => s

/-- Dependency provider `get_query_param`: returns the optional query
parameter unchanged. -/
def get_query_param (q : Option String) : Option String :=
  q

/-- Output shape of `GET /hello`. -/
structure HelloOut where
  Hello : String
deriving DecidableEq, Repr

/-- Handler for `GET /hello`. -/
def hello (q : Option String) : HelloOut :=
  { Hello := "How are you? Query Parameter: " ++ pyShowOptStr q }

/-- Output shape of `GET /items/\x7bitem_id\x7d`. -/
structure ReadItemOut where
  item_id : Int
deriving DecidableEq, Repr

/-- Handler for `GET /items/\x7bitem_id\x7d`. -/
def read_item (item_id : Int) : ReadItemOut :=
  { item_id := item_id }

/-- Output shape of `POST /items/`. -/
structure CreateItemOut where
  item : Item
deriving DecidableEq, Repr

/-- Handler for `POST /items/`: echoes the validated body. -/
def create_item (item : Item) : CreateItemOut :=
  { item := item }

/-- Output shape of `PUT /items/\x7bitem_id\x7d`. -/
structure UpdateItemOut where
  item_id : Int
  item : Item
deriving DecidableEq, Repr

/-- Handler for `PUT /items/\x7bitem_id\x7d`. -/
def update_item (item_id : Int) (item : Item) : UpdateItemOut :=
  { item_id := item_id, item := item }

/-- Output shape of `DELETE /items/\x7bitem_id\x7d`. -/
structure DeleteItemOut where
  message : String
deriving DecidableEq, Repr

/-- Handler for `DELETE /items/\x7bitem_id\x7d`: returns a message with
the decimal rendering of the id interpolated; touches no storage. -/
def delete_item (item_id : Int) : DeleteItemOut :=
  { message := "Item with ID " ++ toString item_id ++ " deleted" }

/-- Handler for `GET /error`: unconditionally raises a 404 with the
fixed detail string. -/
def trigger_error : Except HTTPException Unit :=
  Except.error { status_code := 404, detail := "This is a custom error" }

/-- Pydantic response model `ItemResponse`, structurally identical to
`Item`. -/
structure ItemResponse where
  name : String
  description : Option String := none
  price : Rat
  tax : Option Rat := none
deriving DecidableEq, Repr

/-- Handler for `GET /item/\x7bitem_id\x7d`: ignores its argument and
returns the hardcoded payload shaped by `ItemResponse`. -/
def get_item (_item_id : Int) : ItemResponse :=
  { name := "Sample Item"
    description := some "A sample item description"
    price := 1999/100
    tax := some (3/2) }

/-- Service class `ItemService`: an in-memory string-to-string mapping
fixed at construction. -/
structure ItemService where
  items : List (String × String)
deriving DecidableEq, Repr

/-- Constructor `ItemService.__init__`: the fixed two-entry mapping. -/
def ItemService.init : ItemService :=
  { items := [("1", "Item 1"), ("2", "Item 2")] }

/-- Method `ItemService.get_item`: `self.items.get(item_id, "Item not
found")`. -/
def ItemService.get_item (self : ItemService) (item_id : String) : String :=
  (self.items.lookup item_id).getD "Item not found"

/-- Dependency provider `get_item_service`: a fresh `ItemService`. -/
def get_item_service : ItemService :=
  ItemService.init

/-- Output shape of `GET /service-item/\x7bitem_id\x7d` on success. -/
structure ServiceItemOut where
  item_id : String
  item : String
deriving DecidableEq, Repr

/-- Handler for `GET /service-item/\x7bitem_id\x7d`: looks the id up in
the injected service and converts the sentinel into a 404. -/
def read_item_service (item_id : String) (service : ItemService) :
    Except HTTPException ServiceItemOut :=
  let item := service.get_item item_id
  if item = "Item not found" then
    Except.error { status_code := 404, detail := "Item not found" }
  else
    Except.ok { item_id := item_id, item := item }

/-- A request to any of the eight routes, carrying its validated
input. -/
inductive Request where
  | hello (q : Option String)
  | read_item (item_id : Int)
  | create_item (item : Item)
  | update_item (item_id : Int) (item : Item)
  | delete_item (item_id : Int)
  | trigger_error
  | get_item (item_id : Int)
  | read_item_service (item_id : String)
deriving DecidableEq, Repr

/-- A successful response from any of the eight routes. -/
inductive Response where
  | helloOut (r : HelloOut)
  | readItemOut (r : ReadItemOut)
  | createItemOut (r : CreateItemOut)
  | updateItemOut (r : UpdateItemOut)
  | deleteItemOut (r : DeleteItemOut)
  | unit
  | itemResponse (r : ItemResponse)
  | serviceItemOut (r : ServiceItemOut)
deriving DecidableEq, Repr

/-- The application dispatcher: routes a request to its handler. The
`ItemService` dependency is constructed fresh inside the call, as
`Depends(get_item_service)` does per request; no state flows between
requests. -/
def handle : Request → Except HTTPException Response
  | .hello q => Except.ok (.helloOut (hello q))
  | .read_item i => Except.ok (.readItemOut (read_item i))
  | .create_item it => Except.ok (.createItemOut (create_item it))
  | .update_item i it => Except.ok (.updateItemOut (update_item i it))
  | .delete_item i => Except.ok (.deleteItemOut (delete_item i))
  | .trigger_error => trigger_error.map fun _ => Response.unit
  | .get_item i => Except.ok (.itemResponse (get_item i))
  | .read_item_service s =>
      (read_item_service s get_item_service).map Response.serviceItemOut

/-- Processing a sequence of requests: each is handled independently. -/
def run (reqs : List Request) : List (Except HTTPException Response) :=
  reqs.map handle

/-- Helper: association-list lookup on the fixed mapping, by cases on
the key. -/
theorem ItemService.lookup_cases (s : String) :
    ItemService.init.items.lookup s =
      if s = "1" then some "Item 1"
      else if s = "2" then some "Item 2"
      else none := by
  by_cases h1 : s = "1"
  · subst h1
    simp [ItemService.init, List.lookup]
  · by_cases h2 : s = "2"
    · subst h2
      simp [ItemService.init, List.lookup]
    · have b1 : (s == "1") = false := beq_eq_false_iff_ne.mpr h1
      have b2 : (s == "2") = false := beq_eq_false_iff_ne.mpr h2
      simp [ItemService.init, List.lookup, b1, b2, h1, h2]

/-- Helper: `ItemService.get_item` on the fixed mapping, by cases on the
key. -/
theorem ItemService.get_item_cases (s : String) :
    ItemService.init.get_item s =
      if s = "1" then "Item 1"
      else if s = "2" then "Item 2"
      else "Item not found" := by
  rw [ItemService.get_item, ItemService.lookup_cases]
  by_cases h1 : s = "1"
  · simp [h1]
  · by_cases h2 : s = "2"
    · simp [h1, h2]
    · simp [h1, h2]

/-- C1: for the service-item lookup, `"1"` and `"2"` succeed with the
mapped strings and every other key fails with a 404 whose detail is
"Item not found". -/
theorem read_item_service_spec (item_id : String) :
    read_item_service item_id get_item_service =
      if item_id = "1" then
        Except.ok { item_id := item_id, item := "Item 1" }
      else if item_id = "2" then
        Except.ok { item_id := item_id, item := "Item 2" }
      else
        Except.error { status_code := 404, detail := "Item not found" } := by
  rw [read_item_service]
  show (let item := get_item_service.get_item item_id; _) = _
  rw [get_item_service, ItemService.get_item_cases]
  by_cases h1 : item_id = "1"
  · simp [h1]
  · by_cases h2 : item_id = "2"
    · simp [h1, h2]
    · simp [h1, h2]

/-- C2: `create_item` echoes its validated body, and on input
`{"name":"a","price":1.0}` the absent optional fields default to the
absent value, giving `{"item": {"name":"a","description":null,
"price":1.0,"tax":null}}`. -/
theorem create_item_echoes :
    (∀ item : Item, create_item item = { item := item }) ∧
    create_item { name := "a", price := 1 } =
      { item := { name := "a", description := none, price := 1, tax := none } } :=
  ⟨fun _ => rfl, rfl⟩

/-- C3: for every integer `item_id`, `read_item` succeeds and returns
exactly `{"item_id": item_id}`. -/
theorem read_item_spec (item_id : Int) :
    read_item item_id = { item_id := item_id } :=
  rfl

/-- C4: `trigger_error` never returns a success value: on every
invocation it fails with status 404 and detail "This is a custom
error". -/
theorem trigger_error_spec :
    trigger_error =
      Except.error { status_code := 404, detail := "This is a custom error" } ∧
    ∀ v : Unit, trigger_error ≠ Except.ok v :=
  ⟨rfl, fun _ h => by simp [trigger_error] at h⟩

/-- C5: `get_item` is a constant function of its integer argument,
always returning the fixed `ItemResponse` payload; any two calls give
equal results. -/
theorem get_item_constant :
    (∀ item_id : Int, get_item item_id =
      { name := "Sample Item"
        description := some "A sample item description"
        price := 1999/100
        tax := some (3/2) }) ∧
    ∀ i j : Int, get_item i = get_item j :=
  ⟨fun _ => rfl, fun _ _ => rfl⟩

/-- C6: the dependency provider `get_query_param` is the identity on
its optional-string input, including the absent case. -/
theorem get_query_param_id (q : Option String) :
    get_query_param q = q :=
  rfl

/-- C7: for every integer `item_id`, `delete_item` succeeds with the
fixed message interpolating the decimal rendering of the id, and
processing it through the dispatcher leaves every other request's
response unchanged: there is no storage to mutate. -/
theorem delete_item_spec (item_id : Int) :
    delete_item item_id =
      { message := "Item with ID " ++ toString item_id ++ " deleted" } ∧
    ∀ hist : List Request,
      run (hist ++ [Request.delete_item item_id]) =
        run hist ++ [Except.ok (Response.deleteItemOut (delete_item item_id))] :=
  ⟨rfl, fun hist => by simp [run, handle]⟩

/-- C8: every handler is pure and deterministic: the response to a
request is `handle r`, a function of the request alone, whatever the
prior request history was. -/
theorem handlers_stateless (hist1 hist2 : List Request) (r : Request) :
    (run (hist1 ++ [r])).getLast? = (run (hist2 ++ [r])).getLast? ∧
    (run (hist1 ++ [r])).getLast? = some (handle r) := by
  have last : ∀ hist : List Request,
      (run (hist ++ [r])).getLast? = some (handle r) := by
    intro hist
    rw [run, List.map_append]
    exact List.getLast?_concat _
  exact ⟨(last hist1).trans (last hist2).symm, last hist1⟩

/-- C9: `ItemService.get_item` is total on strings: it returns the
mapped value for keys `"1"` and `"2"` and the sentinel "Item not found"
for every other string; no other outcome is possible. -/
theorem get_item_total (item_id : String) :
    ItemService.init.get_item item_id =
      if item_id = "1" then "Item 1"
      else if item_id = "2" then "Item 2"
      else "Item not found" :=
  ItemService.get_item_cases item_id

/-- C10: no stored value equals the sentinel "Item not found", so the
sentinel test in `read_item_service` holds exactly when the key is
absent from the mapping, i.e. outside `\x7b"1", "2"\x7d`, and the 404
branch never misfires on a successful lookup. -/
theorem sentinel_iff_missing :
    (∀ p ∈ ItemService.init.items, p.2 ≠ "Item not found") ∧
    (∀ s : String,
      ItemService.init.get_item s = "Item not found" ↔
        ItemService.init.items.lookup s = none) ∧
    (∀ s : String,
      ItemService.init.get_item s = "Item not found" ↔ (s ≠ "1" ∧ s ≠ "2")) ∧
    (∀ s : String,
      (∃ e, read_item_service s get_item_service = Except.error e) ↔
        (s ≠ "1" ∧ s ≠ "2")) := by
  refine ⟨by decide, fun s => ?_, fun s => ?_, fun s => ?_⟩
  · rw [ItemService.get_item_cases, ItemService.lookup_cases]
    by_cases h1 : s = "1"
    · simp [h1]
    · by_cases h2 : s = "2"
      · simp [h1, h2]
      · simp [h1, h2]
  · rw [ItemService.get_item_cases]
    by_cases h1 : s = "1"
    · simp [h1]
    · by_cases h2 : s = "2"
      · simp [h1, h2]
      · simp [h1, h2]
  · rw [show read_item_service s get_item_service = _ from rfl]
    rw [read_item_service]
    show (∃ e, (let item := get_item_service.get_item s; _ : Except HTTPException ServiceItemOut) = _) ↔ _
    rw [get_item_service, ItemService.get_item_cases]
    by_cases h1 : s = "1"
    · simp [h1]
    · by_cases h2 : s = "2"
      · simp [h1, h2]
      · simp [h1, h2]
